import Mathlib

/-!
Verification of `gleetex/image.py` (GladTeX image-creation module).

The Python module is shallowly embedded below.  Python runtime values that
flow through the functions under scrutiny are modelled by `PyVal`, Python
exceptions by `PyErr`, the file system visible to `os.remove` / `open` by a
`Finset String` of existing file names, and each external-tool invocation
(`subprocess.Popen`) by a `ToolRun` oracle recording the tool's exit code and
its two output streams.  All functions are computable so that concrete runs
can be evaluated inside proofs.
-/

namespace GladTeX

/-- Python runtime values, as far as the embedded functions inspect them.
Floats are carried as exact rationals: the embedded code only ever routes
them through `isinstance` checks, never through float arithmetic. -/
inductive PyVal where
  | int (n : Int)
  | float (q : ℚ)
  | str (s : String)
  | list (xs : List PyVal)
  | tuple (xs : List PyVal)
  | none

/-- Python exceptions raised by the embedded code. -/
inductive PyErr where
  | typeError (msg : String)
  | valueError (msg : String)
  | indexError (msg : String)
  | subprocessError (msg : String)
deriving DecidableEq

/-- Whether a `PyVal` is a Python `int` (`isinstance(v, int)`). -/
def PyVal.isInt : PyVal → Bool
  | .int _ => true
  | _ => false

/-- Model of Python `str.startswith`: prefix test on the character data. -/
def pyStartsWith (s p : String) : Bool :=
  p.data.isPrefixOf s.data

/-- Model of Python `str.split('\n')` on the character data of a string. -/
def pySplitLinesAux : List Char → List String
  | [] => [""]
  | c :: rest =>
    if c = '\n' then "" :: pySplitLinesAux rest
    else
      match pySplitLinesAux rest with
      | [] => [String.mk [c]]
      | s :: ss => String.mk (c :: s.data) :: ss

/-- Model of Python `str.split('\n')`. -/
def pySplitLines (s : String) : List String :=
  pySplitLinesAux s.data

/-- Model of Python `sep.join(list)`. -/
def joinWith (sep : String) : List String → String
  | [] => ""
  | [s] => s
  | s :: rest => s ++ sep ++ joinWith sep rest

/-- Maximal digit run at the front of a character list, with the rest;
models a greedy `(\d+)` regex group followed by a non-digit literal. -/
def takeDigits : List Char → List Char × List Char
  | [] => ([], [])
  | c :: cs =>
    if c.isDigit then
      let (ds, r) := takeDigits cs
      (c :: ds, r)
    else ([], c :: cs)

/-- Drop a literal character sequence from the front of a list;
`none` when the list does not start with that literal. -/
def dropLit : List Char → List Char → Option (List Char)
  | [], cs => some cs
  | _ :: _, [] => Option.none
  | p :: ps, c :: cs => if c = p then dropLit ps cs else Option.none

/-- Model of `Tex2img.DVIPNG_REGEX.search(line)` for the pattern
`^ depth=(\d+) height=(\d+) width=(\d+)`: anchored at the start of the
line (no MULTILINE flag), three greedy digit groups returned in order
depth, height, width.  `\d` is taken as ASCII digits, which is what the
rasterizer emits. -/
def dvipngLineMatch (line : String) : Option (String × String × String) :=
  match dropLit " depth=".data line.data with
  | Option.none => Option.none
  | some r1 =>
    let (d, r2) := takeDigits r1
    if d = [] then Option.none else
    match dropLit " height=".data r2 with
    | Option.none => Option.none
    | some r3 =>
      let (h, r4) := takeDigits r3
      if h = [] then Option.none else
      match dropLit " width=".data r4 with
      | Option.none => Option.none
      | some r5 =>
        let (w, _) := takeDigits r5
        if w = [] then Option.none else some (String.mk d, String.mk h, String.mk w)

/-- Result of one external-tool execution: exit code as reported by
`proc.wait()` and the two captured streams, already decoded.  An empty
string stands for an empty (falsy) stream. -/
structure ToolRun where
  exitCode : Int
  stdout : String
  stderr : String
deriving DecidableEq

/-- Model of `[d.decode(...) for d in proc.communicate() if d]`: the decoded
stdout and stderr in that order, each dropped when empty. -/
def decodedData (run : ToolRun) : List String :=
  (if run.stdout = "" then [] else [run.stdout]) ++
    (if run.stderr = "" then [] else [run.stderr])

/-- Embedding of `call(cmd)`: the tool's streams are collected, and a
`SubprocessError` is raised exactly when `proc.wait()` is non-zero (any
non-zero integer is truthy in Python); otherwise the decoded data is
returned.  Failure to spawn the process at all is outside this model. -/
def call (cmd : List String) (run : ToolRun) : Except PyErr (List String) :=
  let data := decodedData run
  if run.exitCode = 0 then .ok data
  else .error (.subprocessError
    ("Error while executing " ++ joinWith " " cmd ++ joinWith "\n" data))

/-- Loop body of `remove_all`: remove files in order; `os.remove` raises
`OSError` for a file that does not exist, which aborts the loop.  Returns
the resulting file system and whether the loop was aborted. -/
def removeLoop (fs : Finset String) : List String → Finset String × Bool
  | [] => (fs, false)
  | f :: rest =>
    if f ∈ fs then removeLoop (fs.erase f) rest
    else (fs, true)

/-- Embedding of `remove_all(*files)`: the removal loop runs inside a
`try`/`except OSError: pass`, so the first failing removal silently ends
the whole call. -/
def remove_all (fs : Finset String) (files : List String) : Finset String :=
  (removeLoop fs files).1

/-- Embedding of `Tex2img.parse_log`, loop state `copy` made explicit.
The assignment `line = line[2:]` in the source is dead (that branch never
appends `line`), so it is not reproduced. -/
def parse_logAux : Bool → List String → List String
  | _, [] => []
  | copy, l :: ls =>
    if pyStartsWith l "! " then parse_logAux true ls
    else if copy then
      if pyStartsWith l "No pages of" || pyStartsWith l "Output written" ||
          pyStartsWith l "!  ==> Fatal error o" then []
      else l :: parse_logAux copy ls
    else parse_logAux copy ls

/-- Embedding of `Tex2img.parse_log(logdata)`: `None` for falsy input,
otherwise the joined relevant lines. -/
def parse_log (logdata : String) : Option String :=
  if logdata = "" then Option.none
  else some (joinWith "\n" (parse_logAux false (pySplitLines logdata)))

/-- Geometry record built by `create_png`:
`dict(zip(['depth', 'height', 'width'], found.groups()))`, kept as an
association list in insertion order.  The regex groups are Python `str`
values, hence `PyVal.str` payloads. -/
def Geometry := List (String × PyVal)

/-- State of a `Tex2img` instance.  Doubly-underscored Python attributes
are plain fields here. -/
structure Tex2img where
  tex_document : String
  output_name : String
  encoding : String
  parsed_data : Option Geometry
  dpi : Int
  keep_log : Bool
  background : String
  foreground : String

/-- Embedding of `Tex2img.__init__` with the default encoding. -/
def Tex2img.init (tex_document output_fn : String) : Tex2img where
  tex_document := tex_document
  output_name := output_fn
  encoding := "UTF-8"
  parsed_data := Option.none
  dpi := 100
  keep_log := false
  background := "transparent"
  foreground := "rgb 0 0 0"

/-- Embedding of `Tex2img.set_dpi`: only `isinstance(dpi, int)` is checked,
then the value is stored. -/
def set_dpi (t : Tex2img) (dpi : PyVal) : Except PyErr Tex2img :=
  match dpi with
  | .int n => .ok { t with dpi := n }
  | _ => .error (.typeError "Dpi must be an integer")

/-- Embedding of `Tex2img.__check_rgb`.  The source runs
`isinstance(rgb_list, [list, tuple])`, and CPython raises
`TypeError: isinstance() arg 2 must be a type or tuple of types` whenever
the second argument is a list — so this check raises `TypeError` for every
argument and the two intended `ValueError` branches (and the equally broken
two-argument `all(...)` call) are unreachable. -/
def check_rgb (_rgb_list : PyVal) : Except PyErr Unit :=
  .error (.typeError "isinstance() arg 2 must be a type or tuple of types")

/-- Rendering of one colour component inside
`'rgb {0[0]} {0[1]} {0[2]}'.format(rgb_list)`; dead code in the source,
because `check_rgb` always raises first. -/
def pyFormatVal : PyVal → String
  | .int n => toString n
  | .float q => toString q
  | .str s => s
  | _ => ""

/-- Colour string built by `set_background_color` / `set_foreground_color`;
dead code in the source (see `check_rgb`). -/
def rgbFormat (v : PyVal) : String :=
  match v with
  | .list (a :: b :: c :: _) => "rgb " ++ pyFormatVal a ++ " " ++ pyFormatVal b ++ " " ++ pyFormatVal c
  | .tuple (a :: b :: c :: _) => "rgb " ++ pyFormatVal a ++ " " ++ pyFormatVal b ++ " " ++ pyFormatVal c
  | _ => ""

/-- Embedding of `Tex2img.set_background_color`. -/
def set_background_color (t : Tex2img) (rgb_list : PyVal) : Except PyErr Tex2img :=
  match check_rgb rgb_list with
  | .error e => .error e
  | .ok _ => .ok { t with background := rgbFormat rgb_list }

/-- Embedding of `Tex2img.set_foreground_color`. -/
def set_foreground_color (t : Tex2img) (rgb_list : PyVal) : Except PyErr Tex2img :=
  match check_rgb rgb_list with
  | .error e => .error e
  | .ok _ => .ok { t with foreground := rgbFormat rgb_list }

/-- Embedding of `Tex2img.create_dvi(dvi_fn)`.  The source splits `dvi_fn`
into directory and extension to derive the sibling `.tex`/`.aux`/`.log`
names; every caller passes `stem + '.dvi'`, so the model takes the common
`stem` directly and works with bare file names (the `os.chdir` bracket,
which only selects the directory those names live in, is not modelled).
`latexOutcome` is the oracle for `call(['latex', ...])` with the raised
message as payload, and `latexCreated` the set of files the latex run
wrote.  Returned are the method's outcome and the final file system. -/
def create_dvi (t : Tex2img) (stem : String) (latexOutcome : Except String Unit)
    (latexCreated : Finset String) (fs : Finset String) :
    Except PyErr Unit × Finset String :=
  let dvi_fn := stem ++ ".dvi"
  let tex_fn := stem ++ ".tex"
  let aux_fn := stem ++ ".aux"
  let log_fn := stem ++ ".log"
  let fs1 := insert tex_fn fs ∪ latexCreated
  match latexOutcome with
  | .error e =>
    let fs2 := remove_all fs1 [dvi_fn]
    let fs3 := if t.keep_log then fs2 else remove_all fs2 [log_fn]
    let msg := (parse_log e).getD ""
    let fs4 := remove_all fs3 [tex_fn, aux_fn]
    (.error (.subprocessError msg), fs4)
  | .ok _ =>
    let fs2 := remove_all fs1 [tex_fn, aux_fn]
    (.ok (), remove_all fs2 [log_fn])

/-- First phase of `create_png`: scan the lines of `data[0]` for the first
`DVIPNG_REGEX` match and build the result dict, else
`raise ValueError("Could not parse dvi output")`. -/
def pngScan : List String → Except PyErr Geometry
  | [] => .error (.valueError "Could not parse dvi output")
  | l :: ls =>
    match dvipngLineMatch l with
    | some (d, h, w) => .ok [("depth", .str d), ("height", .str h), ("width", .str w)]
    | Option.none => pngScan ls

/-- The `cmd` list `create_png` hands to `call`. -/
def dvipngCmd (t : Tex2img) (dvi_fn : String) : List String :=
  ["dvipng", "-q*", "-D", toString t.dpi,
    "-bg", t.background, "-fg", t.foreground,
    "--height*", "--depth*", "--width*",
    "-o", t.output_name, dvi_fn]

/-- Body of `Tex2img.create_png` after the `call` returned or raised: on
failure the partial output image and then (in the `finally`) the dvi file
are removed and the error propagates; on success only the dvi file is
removed, after which `data[0]` raises `IndexError` when both streams were
empty, and the line scan runs otherwise. -/
def pngAfterCall (t : Tex2img) (dvi_fn : String) (created fs : Finset String) :
    Except PyErr (List String) → Except PyErr Geometry × Finset String
  | .error e =>
    (.error e, remove_all (remove_all (fs ∪ created) [t.output_name]) [dvi_fn])
  | .ok data =>
    match data.head? with
    | Option.none =>
      (.error (.indexError "list index out of range"), remove_all (fs ∪ created) [dvi_fn])
    | some first =>
      (pngScan (pySplitLines first), remove_all (fs ∪ created) [dvi_fn])

/-- Embedding of `Tex2img.create_png(dvi_fn)`.  `run` is the oracle for the
`dvipng` execution and `created` the files it wrote (the output image, when
it got that far). -/
def create_png (t : Tex2img) (dvi_fn : String) (run : ToolRun)
    (created : Finset String) (fs : Finset String) :
    Except PyErr Geometry × Finset String :=
  pngAfterCall t dvi_fn created fs (call (dvipngCmd t dvi_fn) run)

/-- Model of `os.path.splitext` on a bare file name: locate the last dot;
`none` when there is none. -/
def splitextAux : List Char → Option (List Char × List Char)
  | [] => Option.none
  | c :: rest =>
    match splitextAux rest with
    | some (st, ex) => some (c :: st, ex)
    | Option.none => if c = '.' then some ([], c :: rest) else Option.none

/-- Model of `os.path.splitext` on a bare file name, including the
leading-dot rule (a name whose part before the last dot is all dots has no
extension). -/
def pySplitext (s : String) : String × String :=
  match splitextAux s.data with
  | Option.none => (s, "")
  | some (st, ex) =>
    if st.all (· = '.') then (s, "") else (String.mk st, String.mk ex)

/-- Oracle for one `Tex2img.convert` call: outcome of the latex step and of
the dvipng step, with the files each external run created. -/
structure ConvertRun where
  dviOutcome : Except String Unit
  dviCreated : Finset String
  pngRun : ToolRun
  pngCreated : Finset String

/-- Second half of `Tex2img.convert`: run `create_png` and on success store
the parsed data in the instance; an error propagates with the state
unchanged. -/
def convertPng (t : Tex2img) (dvi_fn : String) (pngRun : ToolRun)
    (pngCreated fs : Finset String) : Except PyErr Tex2img × Finset String :=
  match create_png t dvi_fn pngRun pngCreated fs with
  | (.error e, fs2) => (.error e, fs2)
  | (.ok g, fs2) => (.ok { t with parsed_data := some g }, fs2)

/-- Embedding of `Tex2img.convert`, with
`dvi = os.path.splitext(self.output_name)[0] + '.dvi'`.  The
`except OSError` handler in the source is not exercised here: the errors
the two steps raise (`SubprocessError`, `ValueError`, `IndexError`) are not
`OSError`s, and the modelled file operations do not raise. -/
def convert (t : Tex2img) (r : ConvertRun) (fs : Finset String) :
    Except PyErr Tex2img × Finset String :=
  match create_dvi t (pySplitext t.output_name).1 r.dviOutcome r.dviCreated fs with
  | (.error e, fs1) => (.error e, fs1)
  | (.ok _, fs1) =>
    convertPng t ((pySplitext t.output_name).1 ++ ".dvi") r.pngRun r.pngCreated fs1

/-- Embedding of `Tex2img.get_positioning_info`. -/
def get_positioning_info (t : Tex2img) : Option Geometry :=
  t.parsed_data

/-- Run a sequence of `convert` calls against one instance; a failing call
leaves the instance state unchanged (the exception would propagate to the
caller, who may try again), a successful call updates it. -/
def runConverts : Tex2img × Finset String → List ConvertRun → Tex2img × Finset String
  | (t, fs), [] => (t, fs)
  | (t, fs), r :: rs =>
    match convert t r fs with
    | (.ok t2, fs2) => runConverts (t2, fs2) rs
    | (.error _, fs2) => runConverts (t, fs2) rs

/-- The geometry a single `convert` call would parse and store, `none` when
that call fails; depends only on the oracle, not on the instance state or
the file system. -/
def runGeo (r : ConvertRun) : Option Geometry :=
  match r.dviOutcome with
  | .error _ => Option.none
  | .ok _ =>
    if r.pngRun.exitCode = 0 then
      match (decodedData r.pngRun).head? with
      | Option.none => Option.none
      | some first =>
        match pngScan (pySplitLines first) with
        | .ok g => some g
        | .error _ => Option.none
    else Option.none

/-- The two trailer markers of `parse_log` that can actually end the copied
region: lines starting with `'!  ==> Fatal error o'` also start with `'! '`
and therefore take the first branch of the loop instead. -/
def liveTrailer (l : String) : Bool :=
  pyStartsWith l "No pages of" || pyStartsWith l "Output written"

/-- Region characterisation of `parse_log`: the lines strictly after the
first `'! '` line, up to (excluding) the first of them that starts a live
trailer, with the lines that themselves start with `'! '` filtered out. -/
def logRegionCode (ls : List String) : List String :=
  match ls.dropWhile (fun l => !pyStartsWith l "! ") with
  | [] => []
  | _ :: rest =>
    (rest.takeWhile (fun l => !liveTrailer l)).filter (fun l => !pyStartsWith l "! ")

/-- A trailer-marker line in the sense of claim C1: any of the three
markers named by the specification. -/
def isTrailerC1 (l : String) : Bool :=
  pyStartsWith l "No pages of" || pyStartsWith l "Output written" ||
    pyStartsWith l "!  ==> Fatal error o"

/-- Take lines up to and including the first trailer-marker line. -/
def takeToTrailerC1 : List String → List String
  | [] => []
  | l :: ls => if isTrailerC1 l then [l] else l :: takeToTrailerC1 ls

/-- Modelled from the spec wording of claim C1: the region of the log
beginning at the first line starting with `'! '` and ending at the first
line matching a trailer marker (endpoints included). -/
def claimedRegionC1 (ls : List String) : List String :=
  match ls.dropWhile (fun l => !pyStartsWith l "! ") with
  | [] => []
  | l :: rest => l :: takeToTrailerC1 rest

/-- A non-empty all-digit string, i.e. the decimal representation of a
non-negative integer as captured by a `(\d+)` group. -/
def digitString (s : String) : Bool :=
  !s.data.isEmpty && s.data.all Char.isDigit

/-- Geometry of the last successful `convert` call of a sequence, `none`
when no call succeeded. -/
def lastGeo : List ConvertRun → Option Geometry
  | [] => Option.none
  | r :: rs =>
    match lastGeo rs with
    | some g => some g
    | Option.none => runGeo r

/-! ## Helper lemmas -/

theorem remove_all_nil (fs : Finset String) : remove_all fs [] = fs := rfl

theorem removeLoop_cons (fs : Finset String) (f : String) (rest : List String) :
    removeLoop fs (f :: rest) =
      if f ∈ fs then removeLoop (fs.erase f) rest else (fs, true) := rfl

theorem remove_all_cons (fs : Finset String) (f : String) (rest : List String) :
    remove_all fs (f :: rest) =
      if f ∈ fs then remove_all (fs.erase f) rest else fs := by
  by_cases hf : f ∈ fs <;> simp [remove_all, removeLoop_cons, hf]

theorem mem_of_mem_remove_all {x : String} :
    ∀ (l : List String) (fs : Finset String), x ∈ remove_all fs l → x ∈ fs := by
  intro l
  induction l with
  | nil => intro fs h; exact h
  | cons f rest ih =>
    intro fs h
    rw [remove_all_cons] at h
    by_cases hf : f ∈ fs
    · rw [if_pos hf] at h
      exact Finset.mem_of_mem_erase (ih _ h)
    · rwa [if_neg hf] at h

theorem mem_remove_all_of_ne {x : String} :
    ∀ (l : List String) (fs : Finset String), (∀ f ∈ l, x ≠ f) →
      (x ∈ remove_all fs l ↔ x ∈ fs) := by
  intro l
  induction l with
  | nil => intro fs _; exact Iff.rfl
  | cons f rest ih =>
    intro fs h
    rw [remove_all_cons]
    by_cases hf : f ∈ fs
    · rw [if_pos hf, ih _ fun g hg => h g (List.mem_cons_of_mem _ hg),
        Finset.mem_erase]
      exact and_iff_right (h f (List.mem_cons_self _ _))
    · rw [if_neg hf]

theorem not_mem_remove_single (fs : Finset String) (x : String) :
    x ∉ remove_all fs [x] := by
  rw [remove_all_cons]
  by_cases hx : x ∈ fs
  · rw [if_pos hx]; exact Finset.not_mem_erase x fs
  · rw [if_neg hx]; exact hx

theorem not_mem_remove_pair_left {fs : Finset String} {a : String} (b : String)
    (h : a ∈ fs) : a ∉ remove_all fs [a, b] := by
  rw [remove_all_cons, if_pos h]
  intro hmem
  exact Finset.not_mem_erase a fs (mem_of_mem_remove_all _ _ hmem)

theorem not_mem_remove_pair_right {fs : Finset String} {a : String} (b : String)
    (h : a ∈ fs) : b ∉ remove_all fs [a, b] := by
  rw [remove_all_cons, if_pos h]
  exact not_mem_remove_single _ b

theorem string_data_append (s t : String) : (s ++ t).data = s.data ++ t.data := by
  cases s; cases t; rfl

theorem string_append_ne {a b : String} (s : String) (h : a.data ≠ b.data) :
    s ++ a ≠ s ++ b := by
  intro he
  apply h
  have hd := congrArg String.data he
  rw [string_data_append, string_data_append] at hd
  exact List.append_cancel_left hd

theorem pyStartsWith_iff (s p : String) : pyStartsWith s p = true ↔ p.data <+: s.data := by
  simp [pyStartsWith]

theorem not_liveTrailer_of_bang {l : String} (h : pyStartsWith l "! " = true) :
    liveTrailer l = false := by
  rw [pyStartsWith_iff] at h
  have hno : pyStartsWith l "No pages of" = false := by
    cases hq : pyStartsWith l "No pages of" with
    | false => rfl
    | true =>
      rw [pyStartsWith_iff] at hq
      rcases List.prefix_or_prefix_of_prefix h hq with h2 | h2
      · exact absurd h2 (by decide)
      · exact absurd h2 (by decide)
  have hout : pyStartsWith l "Output written" = false := by
    cases hq : pyStartsWith l "Output written" with
    | false => rfl
    | true =>
      rw [pyStartsWith_iff] at hq
      rcases List.prefix_or_prefix_of_prefix h hq with h2 | h2
      · exact absurd h2 (by decide)
      · exact absurd h2 (by decide)
  simp [liveTrailer, hno, hout]

theorem fatal_needs_bang {l : String} (h : pyStartsWith l "! " = false) :
    pyStartsWith l "!  ==> Fatal error o" = false := by
  cases hf : pyStartsWith l "!  ==> Fatal error o" with
  | false => rfl
  | true =>
    rw [pyStartsWith_iff] at hf
    have hb : pyStartsWith l "! " = true :=
      (pyStartsWith_iff l "! ").mpr (List.IsPrefix.trans (by decide) hf)
    rw [h] at hb
    exact absurd hb (by decide)

theorem parse_logAux_true (ls : List String) :
    parse_logAux true ls =
      (ls.takeWhile fun l => !liveTrailer l).filter fun l => !pyStartsWith l "! " := by
  induction ls with
  | nil => rfl
  | cons l ls ih =>
    by_cases hb : pyStartsWith l "! " = true
    · have ht := not_liveTrailer_of_bang hb
      simp [parse_logAux, hb, ht, List.takeWhile_cons, List.filter_cons, ih]
    · have hb' : pyStartsWith l "! " = false := by
        cases hx : pyStartsWith l "! " with
        | false => rfl
        | true => exact absurd hx hb
      have hf := fatal_needs_bang hb'
      by_cases htr : liveTrailer l = true
      · have : (pyStartsWith l "No pages of" || pyStartsWith l "Output written") = true := htr
        simp [parse_logAux, hb', hf, List.takeWhile_cons, htr, liveTrailer] at this ⊢
        rcases this with h1 | h1 <;> simp [h1]
      · have htr' : liveTrailer l = false := by
          cases hx : liveTrailer l with
          | false => rfl
          | true => exact absurd hx htr
        have : (pyStartsWith l "No pages of" || pyStartsWith l "Output written") = false := htr'
        rcases Bool.or_eq_false_iff.mp this with ⟨h1, h2⟩
        simp [parse_logAux, hb', hf, h1, h2, List.takeWhile_cons, htr',
          List.filter_cons, ih]

theorem parse_logAux_false (ls : List String) :
    parse_logAux false ls = logRegionCode ls := by
  induction ls with
  | nil => rfl
  | cons l ls ih =>
    by_cases hb : pyStartsWith l "! " = true
    · simp [parse_logAux, hb, logRegionCode, List.dropWhile_cons, parse_logAux_true]
    · have hb' : pyStartsWith l "! " = false := by
        cases hx : pyStartsWith l "! " with
        | false => rfl
        | true => exact absurd hx hb
      simpa [parse_logAux, hb', logRegionCode, List.dropWhile_cons] using ih

/-! ## Claim C1 -/

/-- C1 (amended): the error cause returned by `parse_log` consists of
exactly the lines strictly between the first line starting with the fatal
marker `'! '` and the first later line starting with `'No pages of'` or
`'Output written'`, with interior lines that themselves start with `'! '`
also discarded; the `'!  ==> Fatal error o'` trailer never ends the region
(such lines start with `'! '` and are merely skipped), and every line
outside that region is discarded.  For falsy log data the result is
`None`. -/
theorem parse_log_region (logdata : String) :
    parse_log logdata =
      if logdata = "" then Option.none
      else some (joinWith "\n" (logRegionCode (pySplitLines logdata))) := by
  unfold parse_log
  by_cases h : logdata = "" <;> simp [h, parse_logAux_false]

/-- C1 counterexample: on a log whose fatal-error trailer line is followed
by one more line, `parse_log` keeps that following line (and drops the
leading `'! '` line), so its result is not the claimed region between the
first error marker and the first trailer marker. -/
theorem parse_log_claim_false :
    parse_log "! Undefined control sequence.\nl.5 \\foo\n!  ==> Fatal error occurred, no output PDF file produced!\nTranscript written on eqn.log." =
      some "l.5 \\foo\nTranscript written on eqn.log." ∧
    joinWith "\n" (claimedRegionC1 (pySplitLines "! Undefined control sequence.\nl.5 \\foo\n!  ==> Fatal error occurred, no output PDF file produced!\nTranscript written on eqn.log.")) =
      "! Undefined control sequence.\nl.5 \\foo\n!  ==> Fatal error occurred, no output PDF file produced!" ∧
    parse_log "! Undefined control sequence.\nl.5 \\foo\n!  ==> Fatal error occurred, no output PDF file produced!\nTranscript written on eqn.log." ≠
      some (joinWith "\n" (claimedRegionC1 (pySplitLines "! Undefined control sequence.\nl.5 \\foo\n!  ==> Fatal error occurred, no output PDF file produced!\nTranscript written on eqn.log."))) := by
  refine ⟨rfl, rfl, ?_⟩
  intro h
  exact absurd (Option.some.inj h) (by decide)

/-! ## Claim C7 -/

/-- C7: `call` raises an error exactly when the tool's exit status is
non-zero (any non-zero integer is truthy for `if proc.wait():`); on a zero
exit status it returns the decoded, non-empty output streams without
raising. -/
theorem call_error_iff_nonzero (cmd : List String) (run : ToolRun) :
    ((∃ e, call cmd run = .error e) ↔ run.exitCode ≠ 0) ∧
    (run.exitCode = 0 → call cmd run = .ok (decodedData run)) := by
  unfold call
  by_cases h : run.exitCode = 0 <;> simp [h]

/-- C7 witness: a concrete successful run returns its decoded output, and a
concrete failing run raises. -/
theorem call_error_iff_nonzero_witness :
    call ["latex", "-halt-on-error", "eqn.tex"] ⟨0, "This is TeX", ""⟩ =
      .ok ["This is TeX"] ∧
    ∃ e, call ["latex", "-halt-on-error", "eqn.tex"] ⟨1, "", "boom"⟩ = .error e :=
  ⟨(call_error_iff_nonzero ["latex", "-halt-on-error", "eqn.tex"] ⟨0, "This is TeX", ""⟩).2 rfl,
   (call_error_iff_nonzero ["latex", "-halt-on-error", "eqn.tex"] ⟨1, "", "boom"⟩).1.mpr (by decide)⟩

/-! ## Claim C10 -/

/-- C10: `remove_all` swallows the `OSError` of a failed removal (it
returns a file system instead of an error by construction), but the first
failing removal aborts the whole loop: when every file of `pre` is removed
successfully and removing `f` then fails, the files of `suf` are left
exactly as they were after processing `pre` — their removal is never
attempted. -/
theorem remove_all_stops_at_first_failure (fs : Finset String) (pre suf : List String)
    (f : String) (hpre : (removeLoop fs pre).2 = false)
    (hf : f ∉ (removeLoop fs pre).1) :
    remove_all fs (pre ++ f :: suf) = (removeLoop fs pre).1 := by
  induction pre generalizing fs with
  | nil =>
    have hf' : f ∉ fs := hf
    rw [List.nil_append, remove_all_cons, if_neg hf']
    rfl
  | cons p ps ih =>
    rw [removeLoop_cons] at hpre hf ⊢
    by_cases hp : p ∈ fs
    · rw [if_pos hp] at hpre hf ⊢
      rw [List.cons_append, remove_all_cons, if_pos hp]
      exact ih _ hpre hf
    · rw [if_neg hp] at hpre
      simp at hpre

/-- C10 witness: removing `["a", "b", "c"]` from `{"a", "c"}` removes `"a"`,
fails on `"b"`, and leaves `"c"` in place. -/
theorem remove_all_stops_witness :
    remove_all {"a", "c"} (["a"] ++ "b" :: ["c"]) = (removeLoop {"a", "c"} ["a"]).1 :=
  remove_all_stops_at_first_failure {"a", "c"} ["a"] ["c"] "b" (by decide) (by decide)

/-! ## Claim C4 -/

/-- C4 (code bug): `set_background_color` and `set_foreground_color` raise
`TypeError` for every argument — valid colour triples included — because
`__check_rgb` calls `isinstance(rgb_list, [list, tuple])`, which CPython
rejects with `TypeError` before any of the intended `ValueError` checks can
run; consequently no colour is ever set. -/
theorem set_color_always_typeerror : ∀ (t : Tex2img) (v : PyVal),
    set_background_color t v =
      .error (.typeError "isinstance() arg 2 must be a type or tuple of types") ∧
    set_foreground_color t v =
      .error (.typeError "isinstance() arg 2 must be a type or tuple of types") :=
  fun _ _ => ⟨rfl, rfl⟩

/-! ## Claim C8 -/

/-- C8 (amended): `set_dpi` accepts exactly the Python integers — zero and
negative integers included, positivity is never checked — storing the value
as the resolution, and raises `TypeError` for every non-integer argument. -/
theorem set_dpi_int_only :
    (∀ (t : Tex2img) (n : Int), set_dpi t (.int n) = .ok { t with dpi := n }) ∧
    (∀ (t : Tex2img) (v : PyVal), v.isInt = false →
      set_dpi t v = .error (.typeError "Dpi must be an integer")) := by
  constructor
  · intro t n
    rfl
  · intro t v h
    cases v with
    | int n => exact absurd h (by simp [PyVal.isInt])
    | float q => rfl
    | str s => rfl
    | list xs => rfl
    | tuple xs => rfl
    | none => rfl

/-- C8 witness: a concrete integer is stored, a concrete string is
rejected. -/
theorem set_dpi_int_only_witness :
    set_dpi (Tex2img.init "doc" "eqn.png") (.int 115) =
      .ok { Tex2img.init "doc" "eqn.png" with dpi := 115 } ∧
    set_dpi (Tex2img.init "doc" "eqn.png") (.str "115") =
      .error (.typeError "Dpi must be an integer") :=
  ⟨set_dpi_int_only.1 (Tex2img.init "doc" "eqn.png") 115,
   set_dpi_int_only.2 (Tex2img.init "doc" "eqn.png") (.str "115") rfl⟩

/-- C8 counterexample: the non-positive number `-5` is accepted and stored,
and the positive non-integer number `5/2` is rejected, refuting "accepts
every positive number and rejects any value that is not a positive
number". -/
theorem set_dpi_claim_false :
    set_dpi (Tex2img.init "doc" "eqn.png") (.int (-5)) =
      .ok { Tex2img.init "doc" "eqn.png" with dpi := -5 } ∧
    set_dpi (Tex2img.init "doc" "eqn.png") (.float (5 / 2)) =
      .error (.typeError "Dpi must be an integer") :=
  ⟨rfl, rfl⟩

theorem create_dvi_ok_eq (t : Tex2img) (stem : String) (u : Unit)
    (created fs : Finset String) :
    create_dvi t stem (.ok u) created fs =
      (.ok (), remove_all (remove_all (insert (stem ++ ".tex") fs ∪ created)
        [stem ++ ".tex", stem ++ ".aux"]) [stem ++ ".log"]) := rfl

theorem create_dvi_error_eq (t : Tex2img) (stem e : String)
    (created fs : Finset String) :
    create_dvi t stem (.error e) created fs =
      (.error (.subprocessError ((parse_log e).getD "")),
        remove_all
          (if t.keep_log then
            remove_all (insert (stem ++ ".tex") fs ∪ created) [stem ++ ".dvi"]
          else
            remove_all (remove_all (insert (stem ++ ".tex") fs ∪ created)
              [stem ++ ".dvi"]) [stem ++ ".log"])
          [stem ++ ".tex", stem ++ ".aux"]) := rfl

/-! ## Claim C3 -/

/-- C3 (amended): whatever the latex outcome, `create_dvi` removes the
written `.tex` file and the `.aux` file before returning or raising.  On
failure the `.log` file is removed unless the keep-logs flag is set, in
which case it is left untouched; on success, however, the `.log` file is
always removed, the keep-logs flag notwithstanding. -/
theorem create_dvi_cleanup (t : Tex2img) (stem : String) (outc : Except String Unit)
    (created fs : Finset String) :
    stem ++ ".tex" ∉ (create_dvi t stem outc created fs).2 ∧
    stem ++ ".aux" ∉ (create_dvi t stem outc created fs).2 ∧
    ((create_dvi t stem outc created fs).1.isOk = true ∨ t.keep_log = false →
      stem ++ ".log" ∉ (create_dvi t stem outc created fs).2) ∧
    ((create_dvi t stem outc created fs).1.isOk = false → t.keep_log = true →
      (stem ++ ".log" ∈ (create_dvi t stem outc created fs).2 ↔
        stem ++ ".log" ∈ insert (stem ++ ".tex") fs ∪ created)) := by
  cases outc with
  | ok u =>
    rw [create_dvi_ok_eq]
    have htex : stem ++ ".tex" ∈ insert (stem ++ ".tex") fs ∪ created :=
      Finset.mem_union_left _ (Finset.mem_insert_self _ _)
    refine ⟨?_, ?_, ?_, ?_⟩
    · intro hmem
      exact not_mem_remove_pair_left (stem ++ ".aux") htex
        (mem_of_mem_remove_all _ _ hmem)
    · intro hmem
      exact not_mem_remove_pair_right (stem ++ ".aux") htex
        (mem_of_mem_remove_all _ _ hmem)
    · intro _
      exact not_mem_remove_single _ _
    · intro hko
      exact absurd hko (by simp [Except.isOk, Except.toBool])
  | error e =>
    rw [create_dvi_error_eq]
    have hne_td : stem ++ ".tex" ≠ stem ++ ".dvi" := string_append_ne stem (by decide)
    have hne_tl : stem ++ ".tex" ≠ stem ++ ".log" := string_append_ne stem (by decide)
    have hne_lt : stem ++ ".log" ≠ stem ++ ".tex" := string_append_ne stem (by decide)
    have hne_la : stem ++ ".log" ≠ stem ++ ".aux" := string_append_ne stem (by decide)
    have hne_ld : stem ++ ".log" ≠ stem ++ ".dvi" := string_append_ne stem (by decide)
    have htex1 : stem ++ ".tex" ∈ insert (stem ++ ".tex") fs ∪ created :=
      Finset.mem_union_left _ (Finset.mem_insert_self _ _)
    have htex2 : stem ++ ".tex" ∈
        remove_all (insert (stem ++ ".tex") fs ∪ created) [stem ++ ".dvi"] :=
      (mem_remove_all_of_ne _ _ (by
        intro f hf
        rw [List.mem_singleton] at hf
        rw [hf]
        exact hne_td)).mpr htex1
    have htex3 : stem ++ ".tex" ∈
        (if t.keep_log then
          remove_all (insert (stem ++ ".tex") fs ∪ created) [stem ++ ".dvi"]
        else
          remove_all (remove_all (insert (stem ++ ".tex") fs ∪ created)
            [stem ++ ".dvi"]) [stem ++ ".log"]) := by
      by_cases hk : t.keep_log
      · rw [if_pos hk]
        exact htex2
      · rw [if_neg hk]
        exact (mem_remove_all_of_ne _ _ (by
          intro f hf
          rw [List.mem_singleton] at hf
          rw [hf]
          exact hne_tl)).mpr htex2
    refine ⟨?_, ?_, ?_, ?_⟩
    · exact not_mem_remove_pair_left (stem ++ ".aux") htex3
    · exact not_mem_remove_pair_right (stem ++ ".aux") htex3
    · intro hor
      rcases hor with hok | hkeep
      · exact absurd hok (by simp [Except.isOk, Except.toBool])
      · rw [if_neg (by simp [hkeep])]
        intro hmem
        exact not_mem_remove_single _ (stem ++ ".log")
          (mem_of_mem_remove_all _ _ hmem)
    · intro _ hkeep
      rw [if_pos hkeep]
      rw [mem_remove_all_of_ne _ _ (by
        intro f hf
        rcases List.mem_cons.mp hf with h1 | h1
        · rw [h1]; exact hne_lt
        · rw [List.mem_singleton] at h1
          rw [h1]
          exact hne_la)]
      exact mem_remove_all_of_ne _ _ (by
        intro f hf
        rw [List.mem_singleton] at hf
        rw [hf]
        exact hne_ld)

/-- C3 witness: a concrete failing latex run (keep-logs off): the `.tex`
and the `.log` file are gone afterwards. -/
theorem create_dvi_cleanup_witness :
    "eqn.tex" ∉ (create_dvi (Tex2img.init "doc" "eqn.png") "eqn"
      (.error "! Oops.\nl.1 x") {"eqn.log"} ∅).2 ∧
    "eqn.log" ∉ (create_dvi (Tex2img.init "doc" "eqn.png") "eqn"
      (.error "! Oops.\nl.1 x") {"eqn.log"} ∅).2 :=
  ⟨(create_dvi_cleanup (Tex2img.init "doc" "eqn.png") "eqn"
      (.error "! Oops.\nl.1 x") {"eqn.log"} ∅).1,
   (create_dvi_cleanup (Tex2img.init "doc" "eqn.png") "eqn"
      (.error "! Oops.\nl.1 x") {"eqn.log"} ∅).2.2.1 (Or.inr rfl)⟩

/-- C3 counterexample: with the keep-logs flag active and a successful
latex run that wrote `eqn.log`, `create_dvi` still removes the log file,
contradicting the claim that it is then kept. -/
theorem create_dvi_keeplog_claim_false :
    ({ Tex2img.init "doc" "eqn.png" with keep_log := true }).keep_log = true ∧
    (create_dvi { Tex2img.init "doc" "eqn.png" with keep_log := true } "eqn" (.ok ())
      {"eqn.dvi", "eqn.log", "eqn.aux"} ∅).1 = .ok () ∧
    "eqn.log" ∉ (create_dvi { Tex2img.init "doc" "eqn.png" with keep_log := true } "eqn" (.ok ())
      {"eqn.dvi", "eqn.log", "eqn.aux"} ∅).2 :=
  ⟨rfl, rfl, by decide⟩

/-! ## Claims C6 and C2 -/

theorem call_eq_ok {cmd : List String} {run : ToolRun} (h : run.exitCode = 0) :
    call cmd run = .ok (decodedData run) := by
  unfold call
  rw [if_pos h]

theorem call_eq_error {cmd : List String} {run : ToolRun} (h : ¬run.exitCode = 0) :
    call cmd run = .error (.subprocessError
      ("Error while executing " ++ joinWith " " cmd ++
        joinWith "\n" (decodedData run))) := by
  unfold call
  rw [if_neg h]

theorem pngAfterCall_error (t : Tex2img) (dvi_fn : String) (created fs : Finset String)
    (e : PyErr) :
    pngAfterCall t dvi_fn created fs (.error e) =
      (.error e, remove_all (remove_all (fs ∪ created) [t.output_name]) [dvi_fn]) := rfl

theorem pngAfterCall_ok_snd (t : Tex2img) (dvi_fn : String) (created fs : Finset String)
    (data : List String) :
    (pngAfterCall t dvi_fn created fs (.ok data)).2 =
      remove_all (fs ∪ created) [dvi_fn] := by
  cases hd : data.head? <;> simp [pngAfterCall, hd]

theorem pngAfterCall_ok_none (t : Tex2img) (dvi_fn : String) (created fs : Finset String)
    {data : List String} (hd : data.head? = Option.none) :
    pngAfterCall t dvi_fn created fs (.ok data) =
      (.error (.indexError "list index out of range"),
        remove_all (fs ∪ created) [dvi_fn]) := by
  simp [pngAfterCall, hd]

theorem pngAfterCall_ok_some (t : Tex2img) (dvi_fn : String) (created fs : Finset String)
    {data : List String} {first : String} (hd : data.head? = some first) :
    pngAfterCall t dvi_fn created fs (.ok data) =
      (pngScan (pySplitLines first), remove_all (fs ∪ created) [dvi_fn]) := by
  simp [pngAfterCall, hd]

/-- C6: `create_png` removes the `.dvi` intermediate whether the rasterizer
succeeds or fails, and when the rasterizer exits non-zero the partial
output image is removed before the `SubprocessError` propagates. -/
theorem create_png_cleanup (t : Tex2img) (dvi_fn : String) (run : ToolRun)
    (created fs : Finset String) :
    dvi_fn ∉ (create_png t dvi_fn run created fs).2 ∧
    (run.exitCode ≠ 0 →
      t.output_name ∉ (create_png t dvi_fn run created fs).2 ∧
      ∃ m, (create_png t dvi_fn run created fs).1 = .error (.subprocessError m)) := by
  by_cases h0 : run.exitCode = 0
  · refine ⟨?_, fun hne => absurd h0 hne⟩
    show dvi_fn ∉ (create_png t dvi_fn run created fs).2
    unfold create_png
    rw [call_eq_ok h0, pngAfterCall_ok_snd]
    exact not_mem_remove_single _ _
  · have herr : create_png t dvi_fn run created fs =
        (.error (.subprocessError ("Error while executing " ++
            joinWith " " (dvipngCmd t dvi_fn) ++ joinWith "\n" (decodedData run))),
          remove_all (remove_all (fs ∪ created) [t.output_name]) [dvi_fn]) := by
      unfold create_png
      rw [call_eq_error h0, pngAfterCall_error]
    refine ⟨?_, fun _ => ⟨?_, ⟨"Error while executing " ++
      joinWith " " (dvipngCmd t dvi_fn) ++ joinWith "\n" (decodedData run), ?_⟩⟩⟩
    · rw [herr]
      exact not_mem_remove_single _ _
    · rw [herr]
      intro hmem
      exact not_mem_remove_single _ t.output_name
        (mem_of_mem_remove_all _ _ hmem)
    · rw [herr]

/-- C6 witness: a concrete failing dvipng run removes both the `.dvi` and
the partially written output image. -/
theorem create_png_cleanup_witness :
    "eqn.dvi" ∉ (create_png (Tex2img.init "doc" "eqn.png") "eqn.dvi"
      ⟨1, "", "dvipng fatal"⟩ {"eqn.png", "eqn.dvi"} ∅).2 ∧
    "eqn.png" ∉ (create_png (Tex2img.init "doc" "eqn.png") "eqn.dvi"
      ⟨1, "", "dvipng fatal"⟩ {"eqn.png", "eqn.dvi"} ∅).2 :=
  ⟨(create_png_cleanup (Tex2img.init "doc" "eqn.png") "eqn.dvi"
      ⟨1, "", "dvipng fatal"⟩ {"eqn.png", "eqn.dvi"} ∅).1,
   ((create_png_cleanup (Tex2img.init "doc" "eqn.png") "eqn.dvi"
      ⟨1, "", "dvipng fatal"⟩ {"eqn.png", "eqn.dvi"} ∅).2 (by decide)).1⟩

theorem pngScan_eq_findSome (ls : List String) :
    pngScan ls =
      match ls.findSome? dvipngLineMatch with
      | some (d, h, w) =>
        .ok [("depth", .str d), ("height", .str h), ("width", .str w)]
      | Option.none => .error (.valueError "Could not parse dvi output") := by
  induction ls with
  | nil => rfl
  | cons l ls ih =>
    cases hm : dvipngLineMatch l with
    | none => simp [pngScan, hm, List.findSome?_cons, ih]
    | some trip =>
      obtain ⟨d, h, w⟩ := trip
      simp [pngScan, hm, List.findSome?_cons]

theorem takeDigits_all (cs : List Char) :
    (takeDigits cs).1.all Char.isDigit = true := by
  induction cs with
  | nil => rfl
  | cons c cs ih =>
    by_cases hc : c.isDigit
    · simp [takeDigits, hc, ih]
    · simp [takeDigits, hc]

theorem digitString_of_takeDigits {cs res : List Char} {rest : List Char}
    (h : takeDigits cs = (res, rest)) (hne : res ≠ []) :
    digitString (String.mk res) = true := by
  have hall : res.all Char.isDigit = true := by
    have := takeDigits_all cs
    rw [h] at this
    exact this
  simp [digitString, hall, hne]

theorem dvipngLineMatch_digits {l : String} {d h w : String}
    (hm : dvipngLineMatch l = some (d, h, w)) :
    digitString d = true ∧ digitString h = true ∧ digitString w = true := by
  unfold dvipngLineMatch at hm
  cases h1 : dropLit " depth=".data l.data with
  | none => simp [h1] at hm
  | some r1 =>
    simp only [h1] at hm
    cases h2 : takeDigits r1 with
    | mk ds r2 =>
      simp only [h2] at hm
      by_cases hds : ds = []
      · simp [hds] at hm
      · rw [if_neg hds] at hm
        cases h3 : dropLit " height=".data r2 with
        | none => simp [h3] at hm
        | some r3 =>
          simp only [h3] at hm
          cases h4 : takeDigits r3 with
          | mk hs r4 =>
            simp only [h4] at hm
            by_cases hhs : hs = []
            · simp [hhs] at hm
            · rw [if_neg hhs] at hm
              cases h5 : dropLit " width=".data r4 with
              | none => simp [h5] at hm
              | some r5 =>
                simp only [h5] at hm
                cases h6 : takeDigits r5 with
                | mk ws r6 =>
                  simp only [h6] at hm
                  by_cases hws : ws = []
                  · simp [hws] at hm
                  · rw [if_neg hws] at hm
                    obtain ⟨hd', hh', hw'⟩ : String.mk ds = d ∧
                        String.mk hs = h ∧ String.mk ws = w := by
                      have := Option.some.inj hm
                      exact ⟨congrArg Prod.fst this,
                        congrArg Prod.fst (congrArg Prod.snd this),
                        congrArg Prod.snd (congrArg Prod.snd this)⟩
                    refine ⟨hd' ▸ digitString_of_takeDigits h2 hds,
                      hh' ▸ digitString_of_takeDigits h4 hhs,
                      hw' ▸ digitString_of_takeDigits h6 hws⟩

/-- C2 (amended): on a successful rasterizer exit, `create_png` scans the
first non-empty output stream line by line for the fixed pattern
`^ depth=(\d+) height=(\d+) width=(\d+)` and returns the three captured
digit strings of the first matching line, keyed in the literal order depth,
height, width (each capture a non-empty digit string, i.e. a non-negative
integer); when no line matches it raises the `MetadataUnparseable`
condition `ValueError("Could not parse dvi output")` — except that when the
tool produced no output at all, `data[0]` raises `IndexError` instead. -/
theorem create_png_scan_spec (t : Tex2img) (dvi_fn : String) (run : ToolRun)
    (created fs : Finset String) (h0 : run.exitCode = 0) :
    ((create_png t dvi_fn run created fs).1 =
      match (decodedData run).head? with
      | some first => pngScan (pySplitLines first)
      | Option.none => .error (.indexError "list index out of range")) ∧
    (∀ ls : List String, pngScan ls =
      match ls.findSome? dvipngLineMatch with
      | some (d, hh, w) =>
        .ok [("depth", .str d), ("height", .str hh), ("width", .str w)]
      | Option.none => .error (.valueError "Could not parse dvi output")) ∧
    (∀ (l d hh w : String), dvipngLineMatch l = some (d, hh, w) →
      digitString d = true ∧ digitString hh = true ∧ digitString w = true) := by
  refine ⟨?_, pngScan_eq_findSome, fun l d hh w hm => dvipngLineMatch_digits hm⟩
  unfold create_png
  rw [call_eq_ok h0]
  cases hd : (decodedData run).head? with
  | none => rw [pngAfterCall_ok_none t dvi_fn created fs hd]
  | some first => rw [pngAfterCall_ok_some t dvi_fn created fs hd]

/-- C2 witness: a concrete successful dvipng run with the usual geometry
line yields the parsed dict in order depth, height, width. -/
theorem create_png_scan_spec_witness :
    (create_png (Tex2img.init "doc" "eqn.png") "eqn.dvi"
      ⟨0, " depth=2 height=10 width=56\n", ""⟩ {"eqn.png"} ∅).1 =
      .ok [("depth", PyVal.str "2"), ("height", PyVal.str "10"),
        ("width", PyVal.str "56")] := by
  have h := (create_png_scan_spec (Tex2img.init "doc" "eqn.png") "eqn.dvi"
    ⟨0, " depth=2 height=10 width=56\n", ""⟩ {"eqn.png"} ∅ rfl).1
  rw [h]
  rfl

/-- C2 counterexample: a rasterizer run that exits successfully but prints
nothing on either stream makes `create_png` raise `IndexError` from
`data[0]`, not the `MetadataUnparseable` `ValueError` the claim names. -/
theorem create_png_claim_false :
    (create_png (Tex2img.init "doc" "eqn.png") "eqn.dvi" ⟨0, "", ""⟩ ∅ ∅).1 =
      .error (.indexError "list index out of range") ∧
    (create_png (Tex2img.init "doc" "eqn.png") "eqn.dvi" ⟨0, "", ""⟩ ∅ ∅).1 ≠
      .error (.valueError "Could not parse dvi output") := by
  refine ⟨rfl, fun hc => ?_⟩
  rw [show (create_png (Tex2img.init "doc" "eqn.png") "eqn.dvi" ⟨0, "", ""⟩ ∅ ∅).1 =
    Except.error (PyErr.indexError "list index out of range") from rfl] at hc
  exact PyErr.noConfusion (Except.error.inj hc)

/-! ## Claims C5 and C9 -/

theorem create_png_fst_ok {t : Tex2img} {dvi_fn : String} {run : ToolRun}
    {created fs : Finset String} {first : String} (h0 : run.exitCode = 0)
    (hh : (decodedData run).head? = some first) :
    (create_png t dvi_fn run created fs).1 = pngScan (pySplitLines first) := by
  unfold create_png
  rw [call_eq_ok h0, pngAfterCall_ok_some _ _ _ _ hh]

theorem create_png_fst_none {t : Tex2img} {dvi_fn : String} {run : ToolRun}
    {created fs : Finset String} (h0 : run.exitCode = 0)
    (hh : (decodedData run).head? = Option.none) :
    (create_png t dvi_fn run created fs).1 =
      .error (.indexError "list index out of range") := by
  unfold create_png
  rw [call_eq_ok h0, pngAfterCall_ok_none _ _ _ _ hh]

theorem create_png_fst_err {t : Tex2img} {dvi_fn : String} {run : ToolRun}
    {created fs : Finset String} (h0 : ¬run.exitCode = 0) :
    (create_png t dvi_fn run created fs).1 =
      .error (.subprocessError ("Error while executing " ++
        joinWith " " (dvipngCmd t dvi_fn) ++ joinWith "\n" (decodedData run))) := by
  unfold create_png
  rw [call_eq_error h0, pngAfterCall_error]

theorem convertPng_ok {t : Tex2img} {dvi_fn : String} {run : ToolRun}
    {created fs : Finset String} {g : Geometry}
    (h : (create_png t dvi_fn run created fs).1 = .ok g) :
    convertPng t dvi_fn run created fs =
      (.ok { t with parsed_data := some g }, (create_png t dvi_fn run created fs).2) := by
  unfold convertPng
  rcases hp : create_png t dvi_fn run created fs with ⟨res, fs2⟩
  rw [hp] at h
  have hres : res = .ok g := h
  subst hres
  rfl

theorem convertPng_err {t : Tex2img} {dvi_fn : String} {run : ToolRun}
    {created fs : Finset String} {e : PyErr}
    (h : (create_png t dvi_fn run created fs).1 = .error e) :
    convertPng t dvi_fn run created fs =
      (.error e, (create_png t dvi_fn run created fs).2) := by
  unfold convertPng
  rcases hp : create_png t dvi_fn run created fs with ⟨res, fs2⟩
  rw [hp] at h
  have hres : res = .error e := h
  subst hres
  rfl

theorem convert_eq_of_dvi_ok {r : ConvertRun} {u : Unit} (hd : r.dviOutcome = .ok u)
    (t : Tex2img) (fs : Finset String) :
    convert t r fs =
      convertPng t ((pySplitext t.output_name).1 ++ ".dvi") r.pngRun r.pngCreated
        (create_dvi t (pySplitext t.output_name).1 (.ok u) r.dviCreated fs).2 := by
  unfold convert
  rw [hd, create_dvi_ok_eq]

theorem convert_fst_error {r : ConvertRun} {e : String} (hd : r.dviOutcome = .error e)
    (t : Tex2img) (fs : Finset String) :
    (convert t r fs).1 = .error (.subprocessError ((parse_log e).getD "")) := by
  unfold convert
  rw [hd, create_dvi_error_eq]

theorem convert_fst_of_runGeo_some {r : ConvertRun} {g : Geometry}
    (hg : runGeo r = some g) (t : Tex2img) (fs : Finset String) :
    (convert t r fs).1 = .ok { t with parsed_data := some g } := by
  unfold runGeo at hg
  cases hd : r.dviOutcome with
  | error e => simp [hd] at hg
  | ok u =>
    simp only [hd] at hg
    by_cases h0 : r.pngRun.exitCode = 0
    · rw [if_pos h0] at hg
      cases hh : (decodedData r.pngRun).head? with
      | none => simp [hh] at hg
      | some first =>
        simp only [hh] at hg
        cases hs : pngScan (pySplitLines first) with
        | error e2 => simp [hs] at hg
        | ok g2 =>
          simp only [hs] at hg
          have hgg : g2 = g := Option.some.inj hg
          rw [convert_eq_of_dvi_ok hd, convertPng_ok ((create_png_fst_ok h0 hh).trans hs)]
          rw [hgg]
    · rw [if_neg h0] at hg
      exact Option.noConfusion hg

theorem convert_fst_of_runGeo_none {r : ConvertRun} (hg : runGeo r = Option.none)
    (t : Tex2img) (fs : Finset String) :
    ∃ e, (convert t r fs).1 = .error e := by
  cases hd : r.dviOutcome with
  | error e => exact ⟨_, convert_fst_error hd t fs⟩
  | ok u =>
    unfold runGeo at hg
    simp only [hd] at hg
    by_cases h0 : r.pngRun.exitCode = 0
    · rw [if_pos h0] at hg
      cases hh : (decodedData r.pngRun).head? with
      | none =>
        refine ⟨.indexError "list index out of range", ?_⟩
        rw [convert_eq_of_dvi_ok hd, convertPng_err (create_png_fst_none h0 hh)]
      | some first =>
        simp only [hh] at hg
        cases hs : pngScan (pySplitLines first) with
        | ok g2 => simp [hs] at hg
        | error e2 =>
          refine ⟨e2, ?_⟩
          rw [convert_eq_of_dvi_ok hd, convertPng_err ((create_png_fst_ok h0 hh).trans hs)]
    · refine ⟨.subprocessError ("Error while executing " ++
        joinWith " " (dvipngCmd t ((pySplitext t.output_name).1 ++ ".dvi")) ++
        joinWith "\n" (decodedData r.pngRun)), ?_⟩
      rw [convert_eq_of_dvi_ok hd, convertPng_err (create_png_fst_err h0)]

theorem pngScan_ok_shape : ∀ {ls : List String} {g : Geometry}, pngScan ls = .ok g →
    ∃ d h w, g = [("depth", PyVal.str d), ("height", PyVal.str h), ("width", PyVal.str w)] ∧
      digitString d = true ∧ digitString h = true ∧ digitString w = true := by
  intro ls
  induction ls with
  | nil =>
    intro g h
    exact absurd h (by simp [pngScan])
  | cons l ls ih =>
    intro g h
    unfold pngScan at h
    cases hm : dvipngLineMatch l with
    | none =>
      simp only [hm] at h
      exact ih h
    | some trip =>
      obtain ⟨d, hh, w⟩ := trip
      simp only [hm] at h
      obtain ⟨h1, h2, h3⟩ := dvipngLineMatch_digits hm
      exact ⟨d, hh, w, (Except.ok.inj h).symm, h1, h2, h3⟩

theorem runGeo_some_shape {r : ConvertRun} {g : Geometry} (hg : runGeo r = some g) :
    ∃ d h w, g = [("depth", PyVal.str d), ("height", PyVal.str h), ("width", PyVal.str w)] ∧
      digitString d = true ∧ digitString h = true ∧ digitString w = true := by
  unfold runGeo at hg
  cases hd : r.dviOutcome with
  | error e => simp [hd] at hg
  | ok u =>
    simp only [hd] at hg
    by_cases h0 : r.pngRun.exitCode = 0
    · rw [if_pos h0] at hg
      cases hh : (decodedData r.pngRun).head? with
      | none => simp [hh] at hg
      | some first =>
        simp only [hh] at hg
        cases hs : pngScan (pySplitLines first) with
        | error e2 => simp [hs] at hg
        | ok g2 =>
          simp only [hs] at hg
          obtain ⟨d, hhs, w, hshape, h1, h2, h3⟩ := pngScan_ok_shape hs
          exact ⟨d, hhs, w, (Option.some.inj hg) ▸ hshape, h1, h2, h3⟩
    · rw [if_neg h0] at hg
      exact Option.noConfusion hg

theorem runConverts_parsed (runs : List ConvertRun) :
    ∀ (t : Tex2img) (fs : Finset String),
      ((runConverts (t, fs) runs).1).parsed_data =
        match lastGeo runs with
        | some g => some g
        | Option.none => t.parsed_data := by
  induction runs with
  | nil =>
    intro t fs
    rfl
  | cons r rs ih =>
    intro t fs
    cases hg : runGeo r with
    | some g =>
      have h1 := convert_fst_of_runGeo_some hg t fs
      rcases hc : convert t r fs with ⟨res, fs2⟩
      rw [hc] at h1
      have hres : res = .ok { t with parsed_data := some g } := h1
      subst hres
      simp only [runConverts, hc]
      rw [ih]
      simp only [lastGeo]
      cases lastGeo rs with
      | some g2 => rfl
      | none => simp [hg]
    | none =>
      obtain ⟨e, h1⟩ := convert_fst_of_runGeo_none hg t fs
      rcases hc : convert t r fs with ⟨res, fs2⟩
      rw [hc] at h1
      have hres : res = .error e := h1
      subst hres
      simp only [runConverts, hc]
      rw [ih]
      simp only [lastGeo]
      cases lastGeo rs with
      | some g2 => rfl
      | none => simp [hg]

theorem lastGeo_eq_none : ∀ {runs : List ConvertRun},
    (∀ r ∈ runs, runGeo r = Option.none) → lastGeo runs = Option.none := by
  intro runs
  induction runs with
  | nil => intro _; rfl
  | cons r rs ih =>
    intro h
    simp only [lastGeo, ih fun x hx => h x (List.mem_cons_of_mem _ hx)]
    exact h r (List.mem_cons_self _ _)

/-- C9: starting from a fresh instance, `get_positioning_info` returns the
geometry parsed from the rasterizer output of the latest successful
`convert` call, and `None` as long as no `convert` call has completed
successfully (failing calls leave the stored data untouched). -/
theorem get_positioning_info_spec (doc out : String) (fs : Finset String)
    (runs : List ConvertRun) :
    get_positioning_info ((runConverts (Tex2img.init doc out, fs) runs).1) =
      lastGeo runs ∧
    ((∀ r ∈ runs, runGeo r = Option.none) →
      get_positioning_info ((runConverts (Tex2img.init doc out, fs) runs).1) =
        Option.none) := by
  have h := runConverts_parsed runs (Tex2img.init doc out) fs
  constructor
  · unfold get_positioning_info
    rw [h]
    cases lastGeo runs <;> rfl
  · intro hall
    unfold get_positioning_info
    rw [h, lastGeo_eq_none hall]
    rfl

/-- C9 witness: with no `convert` call yet, the positioning info of a fresh
instance is `None`. -/
theorem get_positioning_info_spec_witness :
    get_positioning_info ((runConverts (Tex2img.init "doc" "eqn.png", ∅) []).1) =
      Option.none :=
  (get_positioning_info_spec "doc" "eqn.png" ∅ []).2
    (fun r hr => absurd hr (List.not_mem_nil r))

/-- C5 (amended): after a successful conversion the stored geometry maps
depth, height and width, in that order, to the captured digit strings of
the rasterizer's geometry line: each value is a Python `str` of decimal
digits — the decimal representation of a non-negative integer — not a
Python `int`. -/
theorem convert_geometry_digit_strings (t : Tex2img) (r : ConvertRun)
    (fs : Finset String) (t2 : Tex2img) (fs2 : Finset String)
    (h : convert t r fs = (.ok t2, fs2)) :
    ∃ d hh w, t2.parsed_data =
        some [("depth", PyVal.str d), ("height", PyVal.str hh), ("width", PyVal.str w)] ∧
      digitString d = true ∧ digitString hh = true ∧ digitString w = true := by
  cases hg : runGeo r with
  | none =>
    obtain ⟨e, he⟩ := convert_fst_of_runGeo_none hg t fs
    rw [h] at he
    exact Except.noConfusion he
  | some g =>
    have hok := convert_fst_of_runGeo_some hg t fs
    rw [h] at hok
    have ht2 : t2 = { t with parsed_data := some g } := Except.ok.inj hok
    obtain ⟨d, hh, w, hgeq, h1, h2, h3⟩ := runGeo_some_shape hg
    refine ⟨d, hh, w, ?_, h1, h2, h3⟩
    rw [ht2]
    simp only [hgeq]

/-- C5 witness: a concrete successful conversion stores the digit-string
geometry parsed from ` depth=2 height=10 width=56`. -/
theorem convert_geometry_digit_strings_witness :
    ∃ d hh w,
      ({ Tex2img.init "doc" "eqn.png" with parsed_data := (some
        [("depth", PyVal.str "2"), ("height", PyVal.str "10"),
          ("width", PyVal.str "56")]) } : Tex2img).parsed_data =
        some [("depth", PyVal.str d), ("height", PyVal.str hh), ("width", PyVal.str w)] ∧
      digitString d = true ∧ digitString hh = true ∧ digitString w = true :=
  convert_geometry_digit_strings (Tex2img.init "doc" "eqn.png")
    ⟨.ok (), {"eqn.dvi", "eqn.log", "eqn.aux"},
      ⟨0, " depth=2 height=10 width=56\n", ""⟩, {"eqn.png"}⟩
    ∅
    { Tex2img.init "doc" "eqn.png" with parsed_data := (some
        [("depth", PyVal.str "2"), ("height", PyVal.str "10"),
          ("width", PyVal.str "56")]) }
    ((convert (Tex2img.init "doc" "eqn.png")
      ⟨.ok (), {"eqn.dvi", "eqn.log", "eqn.aux"},
        ⟨0, " depth=2 height=10 width=56\n", ""⟩, {"eqn.png"}⟩ ∅).2)
    rfl

/-- C5 counterexample: the geometry stored by a concrete successful
conversion holds `str` values (digit strings), not `int` values, so the
claim that width, height and depth are each integers fails on the Python
value types. -/
theorem geometry_values_not_int :
    get_positioning_info ((runConverts (Tex2img.init "doc" "eqn.png", ∅)
      [⟨.ok (), {"eqn.dvi", "eqn.log", "eqn.aux"},
        ⟨0, " depth=2 height=10 width=56\n", ""⟩, {"eqn.png"}⟩]).1) =
      some [("depth", PyVal.str "2"), ("height", PyVal.str "10"),
        ("width", PyVal.str "56")] ∧
    ([("depth", PyVal.str "2"), ("height", PyVal.str "10"),
        ("width", PyVal.str "56")].all fun p => p.2.isInt) = false :=
  ⟨rfl, rfl⟩

end GladTeX
